import Mathlib

/-!
Verification development for the WebCrawler repository
(`src/webcrawler/core.py`, `src/requests_crawler/__init__.py`).

URLs and other Python strings are embedded as `List Char`.  Python's
`urllib.parse.urlparse` / `urlunparse` (the only external string helpers the
core uses) are embedded below following the CPython implementation of
`urlsplit` / `urlunsplit` / `_splitparams`.  The crawler's own functions keep
their source names: `parse_url`, `get_url_type`, `get_user_agent_by_url`,
`get_hyper_links`, `run_dfs`, `save_categorised_url`.
-/

namespace WebCrawler

/-- Python strings are embedded as lists of characters. -/
abbrev PStr := List Char

/-- `s.toL` : convenience conversion from a Lean string literal. -/
def toL (s : String) : PStr := s.toList

/-- Python `str.replace(' ', '')`: removes every space character. -/
def removeSpaces (l : PStr) : PStr := l.filter (fun c => c ≠ ' ')

/-- Python `str.lstrip('../')`: drops every leading character belonging to
the character set `{'.', '/'}` (a character-set strip, not a pattern strip). -/
def lstripDotSlash (l : PStr) : PStr := l.dropWhile (fun c => c = '.' ∨ c = '/')

/-- Python `str.startswith(p)`. -/
def startswith (p l : PStr) : Bool := List.isPrefixOf p l

/-- Python `p in s` (substring containment). -/
def containsSub (p : PStr) : PStr → Bool
  | [] => List.isPrefixOf p []
  | c :: cs => List.isPrefixOf p (c :: cs) || containsSub p cs

/-- Python `str.split(sep)` for a one-character separator. -/
def splitOnChar (c : Char) (l : PStr) : List PStr := List.splitOn c l

/-- Python `sep.join(parts)` for a one-character separator. -/
def joinChar (c : Char) (parts : List PStr) : PStr := List.intercalate [c] parts

/-- Python `str(n)` for a non-negative integer. -/
def natStr (n : Nat) : PStr := Nat.toDigits 10 n

/-! ### `urllib.parse` embedding

Follows CPython's `urlsplit`/`urlunsplit`/`_splitparams`/`urlunparse`
(`Lib/urllib/parse.py`), restricted to `str` inputs with default arguments,
including the WHATWG sanitisation steps (leading C0-control/space strip and
removal of tab/CR/LF) present in maintained 3.6+ releases. -/

/-- The decomposed form of a URL, mirroring `urllib.parse.ParseResult`
(scheme, netloc, path, params, query, fragment). -/
structure ParsedUrl where
  scheme : PStr
  netloc : PStr
  path : PStr
  params : PStr
  query : PStr
  fragment : PStr
deriving DecidableEq, Repr

/-- Characters legal in a scheme after the first (`urllib.parse.scheme_chars`). -/
def schemeChar (c : Char) : Bool :=
  (('a' ≤ c ∧ c ≤ 'z') ∨ ('A' ≤ c ∧ c ≤ 'Z') ∨ ('0' ≤ c ∧ c ≤ '9')
    ∨ c = '+' ∨ c = '-' ∨ c = '.')

/-- ASCII alphabetic test (`url[0].isascii() and url[0].isalpha()`). -/
def asciiAlpha (c : Char) : Bool := ('a' ≤ c ∧ c ≤ 'z') ∨ ('A' ≤ c ∧ c ≤ 'Z')

/-- `_WHATWG_C0_CONTROL_OR_SPACE` membership: code points `0x00`–`0x20`. -/
def c0OrSpace (c : Char) : Bool := c.toNat ≤ 0x20

/-- `urlsplit`'s removal of the unsafe bytes tab, CR and LF. -/
def removeUnsafe (l : PStr) : PStr :=
  l.filter (fun c => c ≠ '\t' ∧ c ≠ '\r' ∧ c ≠ '\n')

/-- Scheme extraction of `urlsplit`: if the URL has a `:` at position `i > 0`,
its head is ASCII-alphabetic and all of `url[1:i]` are scheme characters, the
scheme is `url[:i].lower()` and the rest follows the colon. -/
def splitScheme (l : PStr) : PStr × PStr :=
  let pre := l.takeWhile (fun c => c ≠ ':')
  let rest := l.drop pre.length
  match rest with
  | ':' :: r =>
    match pre with
    | [] => ([], l)
    | c :: cs =>
      if asciiAlpha c ∧ cs.all schemeChar then ((c :: cs).map Char.toLower, r)
      else ([], l)
  | _ => ([], l)

/-- `_splitnetloc`: the netloc runs from after `//` to the first of
`/`, `?` or `#`. -/
def splitNetloc (l : PStr) : PStr × PStr :=
  let n := l.takeWhile (fun c => c ≠ '/' ∧ c ≠ '?' ∧ c ≠ '#')
  (n, l.drop n.length)

/-- Split at the first occurrence of `c`: `(before, after)`;
`after = []` when `c` does not occur (Python `str.split(c, 1)`). -/
def splitFirst (c : Char) (l : PStr) : PStr × PStr :=
  let pre := l.takeWhile (fun x => x ≠ c)
  let rest := l.drop pre.length
  match rest with
  | _ :: r => (pre, r)
  | [] => (pre, [])

/-- Schemes for which `urlparse` separates path parameters
(`urllib.parse.uses_params`). -/
def usesParams : List PStr :=
  [toL "", toL "ftp", toL "hdl", toL "prospero", toL "http", toL "imap",
   toL "https", toL "shttp", toL "rtsp", toL "rtsps", toL "rtspu",
   toL "sip", toL "sips", toL "mms", toL "sftp", toL "tel"]

/-- `_splitparams`: split `;params` off the last path segment.  Python finds
the first `;` at or after `url.rfind('/')`, i.e. the first `;` inside the
last `/`-separated segment (or anywhere if there is no `/`). -/
def splitParams (url : PStr) : PStr × PStr :=
  if containsSub (toL "/") url then
    let parts := splitOnChar '/' url
    let lastSeg := parts.getLastD []
    let seg := lastSeg.takeWhile (fun c => c ≠ ';')
    let after := lastSeg.drop seg.length
    match after with
    | ';' :: ps => (joinChar '/' (parts.dropLast ++ [seg]), ps)
    | _ => (url, [])
  else
    let seg := url.takeWhile (fun c => c ≠ ';')
    let after := url.drop seg.length
    match after with
    | ';' :: ps => (seg, ps)
    | _ => (url, [])

/-- `urllib.parse.urlsplit` (for `str`, default arguments).  `none` models
the `ValueError("Invalid IPv6 URL")` that `urlsplit` raises when the netloc
contains an unbalanced square bracket.  (From 3.11 CPython additionally
validates the inside of a *bracketed* host with `_check_bracketed_host`,
which needs the `ipaddress` module; 3.6–3.10 — this repository's documented
floor is 3.6 — run no such check, and no theorem below involves a bracketed
host.) -/
def urlsplit (url0 : PStr) : Option ParsedUrl :=
  let url1 := url0.dropWhile c0OrSpace
  let url2 := removeUnsafe url1
  let (scheme, url3) := splitScheme url2
  let (netloc, url4) :=
    if startswith (toL "//") url3 then splitNetloc (url3.drop 2) else ([], url3)
  if (netloc.contains '[' ∧ ¬ netloc.contains ']')
      ∨ (netloc.contains ']' ∧ ¬ netloc.contains '[') then
    none
  else
    let (url5, fragment) :=
      if containsSub (toL "#") url4 then splitFirst '#' url4 else (url4, [])
    let (path, query) :=
      if containsSub (toL "?") url5 then splitFirst '?' url5 else (url5, [])
    some { scheme := scheme, netloc := netloc, path := path,
           params := [], query := query, fragment := fragment }

/-- `urllib.parse.urlparse`; `none` propagates `urlsplit`'s `ValueError`. -/
def urlparse (url : PStr) : Option ParsedUrl :=
  match urlsplit url with
  | none => none
  | some s =>
    if s.scheme ∈ usesParams ∧ containsSub (toL ";") s.path then
      let (p, ps) := splitParams s.path
      some { s with path := p, params := ps }
    else some s

/-- `urllib.parse.urlunsplit` applied to `(scheme, netloc, url, query,
fragment)` where `url` already carries the params (see `urlunparse`). -/
def urlunsplit (scheme netloc url query fragment : PStr) : PStr :=
  let url :=
    if netloc ≠ [] ∨ (url ≠ [] ∧ startswith (toL "//") url) then
      let url := if url ≠ [] ∧ ¬ startswith (toL "/") url then '/' :: url else url
      toL "//" ++ netloc ++ url
    else url
  let url := if scheme ≠ [] then scheme ++ ':' :: url else url
  let url := if query ≠ [] then url ++ '?' :: query else url
  if fragment ≠ [] then url ++ '#' :: fragment else url

/-- `urllib.parse.urlunparse`, i.e. `ParseResult.geturl()`. -/
def urlunparse (p : ParsedUrl) : PStr :=
  let u := if p.params ≠ [] then p.path ++ ';' :: p.params else p.path
  urlunsplit p.scheme p.netloc u p.query p.fragment

/-- The prefix of a URL before its first `#` (what fragment removal plus
re-serialisation leaves of a normal-form URL). -/
def stripFragment (l : PStr) : PStr := l.takeWhile (fun c => c ≠ '#')

/-- `parsed_object._replace(fragment='')`. -/
def clearFragment (p : ParsedUrl) : ParsedUrl := { p with fragment := [] }

/-! ### The escaped-JSON-link branch of `parse_url`

`parse_url` handles links starting with `\"` by
`url.encode('utf-8').decode('unicode_escape').replace('\/', '/').replace('"', '')`.
The UTF-8 encode expands non-ASCII characters into their byte values (decoded
back as Latin-1 characters by `unicode_escape`); the decode then interprets
backslash escape sequences, leaving unknown escapes untouched. -/

/-- Hexadecimal digit value. -/
def hexVal (c : Char) : Option Nat :=
  if '0' ≤ c ∧ c ≤ '9' then some (c.toNat - '0'.toNat)
  else if 'a' ≤ c ∧ c ≤ 'f' then some (c.toNat - 'a'.toNat + 10)
  else if 'A' ≤ c ∧ c ≤ 'F' then some (c.toNat - 'A'.toNat + 10)
  else none

/-- Octal digit test. -/
def isOctal (c : Char) : Bool := '0' ≤ c ∧ c ≤ '7'

/-- UTF-8 encoding of one character, each byte as a Latin-1 character. -/
def utf8Chars (c : Char) : PStr :=
  let n := c.toNat
  if n < 0x80 then [c]
  else if n < 0x800 then
    [Char.ofNat (0xC0 + n / 64), Char.ofNat (0x80 + n % 64)]
  else if n < 0x10000 then
    [Char.ofNat (0xE0 + n / 4096), Char.ofNat (0x80 + (n / 64) % 64),
     Char.ofNat (0x80 + n % 64)]
  else
    [Char.ofNat (0xF0 + n / 262144), Char.ofNat (0x80 + (n / 4096) % 64),
     Char.ofNat (0x80 + (n / 64) % 64), Char.ofNat (0x80 + n % 64)]

/-- `str.encode('utf-8')`, bytes kept as characters. -/
def toUtf8 (l : PStr) : PStr := l.flatMap utf8Chars

/-- Single-character escapes recognised by `unicode_escape`. -/
def simpleEscape (c : Char) : Option Char :=
  if c = '\\' then some '\\'
  else if c = '\'' then some '\''
  else if c = '"' then some '"'
  else if c = 'a' then some (Char.ofNat 7)
  else if c = 'b' then some (Char.ofNat 8)
  else if c = 'f' then some (Char.ofNat 12)
  else if c = 'n' then some '\n'
  else if c = 'r' then some (Char.ofNat 13)
  else if c = 't' then some '\t'
  else if c = 'v' then some (Char.ofNat 11)
  else none

/-- `bytes.decode('unicode_escape')`: interpret backslash escapes; unknown
escapes are kept verbatim; a dangling escape is an error (`none`).  Named
escapes (`\N{...}`) would need the Unicode name table and are mapped to
`none`; no input of this repository reaches them. -/
def unicodeEscape : PStr → Option PStr
  | [] => some []
  | '\\' :: rest =>
    match rest with
    | [] => none
    | 'x' :: h1 :: h2 :: r =>
      match hexVal h1, hexVal h2 with
      | some a, some b => (unicodeEscape r).map (fun t => Char.ofNat (16 * a + b) :: t)
      | _, _ => none
    | 'x' :: _ => none
    | 'u' :: h1 :: h2 :: h3 :: h4 :: r =>
      match hexVal h1, hexVal h2, hexVal h3, hexVal h4 with
      | some a, some b, some c, some d =>
        (unicodeEscape r).map (fun t => Char.ofNat (4096 * a + 256 * b + 16 * c + d) :: t)
      | _, _, _, _ => none
    | 'u' :: _ => none
    | 'N' :: _ => none
    | c :: cs =>
      match simpleEscape c with
      | some e => (unicodeEscape cs).map (fun t => e :: t)
      | none =>
        if isOctal c then
          match cs with
          | c2 :: c3 :: r2 =>
            if isOctal c2 then
              if isOctal c3 then
                (unicodeEscape r2).map (fun t =>
                  Char.ofNat (64 * (c.toNat - 48) + 8 * (c2.toNat - 48) + (c3.toNat - 48)) :: t)
              else
                (unicodeEscape (c3 :: r2)).map (fun t =>
                  Char.ofNat (8 * (c.toNat - 48) + (c2.toNat - 48)) :: t)
            else
              (unicodeEscape (c2 :: c3 :: r2)).map (fun t => Char.ofNat (c.toNat - 48) :: t)
          | [c2] =>
            if isOctal c2 then
              (unicodeEscape []).map (fun t =>
                Char.ofNat (8 * (c.toNat - 48) + (c2.toNat - 48)) :: t)
            else
              (unicodeEscape [c2]).map (fun t => Char.ofNat (c.toNat - 48) :: t)
          | [] => some [Char.ofNat (c.toNat - 48)]
        else
          (unicodeEscape cs).map (fun t => '\\' :: c :: t)
  | c :: cs => (unicodeEscape cs).map (fun t => c :: t)
termination_by l => l.length
decreasing_by all_goals simp_all <;> omega

/-- Python `str.replace('\\/', '/')` (left-to-right, non-overlapping). -/
def collapseEscapedSlash : PStr → PStr
  | '\\' :: '/' :: cs => '/' :: collapseEscapedSlash cs
  | c :: cs => c :: collapseEscapedSlash cs
  | [] => []

/-- The whole `\"`-branch transformation of `parse_url`. -/
def unescapeJsonLink (url : PStr) : Option PStr :=
  (unicodeEscape (toUtf8 url)).map
    (fun u => (collapseEscapedSlash u).filter (fun c => c ≠ '"'))

/-! ### The `@!` image-size suffix removal

`parse_url` runs `re.sub(r"@!.*$", "", url)` when `'@!' in url`.  A match at
an occurrence of `@!` succeeds when the rest of the string contains no
newline (the match then extends to the end), or when the only newline after
it is a final trailing newline (the match extends to just before it); the
leftmost matching occurrence wins and everything it covers is deleted. -/
def subAtBang : PStr → PStr
  | [] => []
  | '@' :: rest =>
    match rest with
    | '!' :: t =>
      if t.all (fun c => c ≠ '\n') then []
      else if t.getLastD ' ' = '\n' ∧ (t.dropLast).all (fun c => c ≠ '\n') then ['\n']
      else '@' :: subAtBang rest
    | _ => '@' :: subAtBang rest
  | c :: cs => c :: subAtBang cs

/-! ### `parse_url` and its inner `_make_url_by_referer` -/

/-- Result of `parse_url`: a discarded link (`None` in Python), a resolved
URL string, or an uncaught Python exception (`IndexError`/`ValueError`). -/
inductive ResolveResult where
  | discarded
  | url (u : PStr)
  | error
deriving DecidableEq, Repr

/-- `WebCrawler.parse_url`'s inner `_make_url_by_referer`
(`core.py` lines 106-160).  `none` models the uncaught Python exceptions:
the `IndexError` raised when the referer's path has too few segments to
pop, and the `ValueError` raised when parsing the referer URL fails. -/
def _make_url_by_referer (origin : ParsedUrl) (referer_url : PStr) : Option ParsedUrl :=
  if origin.scheme ≠ [] then
    some origin
  else if origin.netloc ≠ [] then
    some { origin with scheme := toL "http" }
  else if startswith (toL "/") origin.path then
    match urlparse referer_url with
    | none => none
    | some r => some { origin with scheme := r.scheme, netloc := r.netloc }
  else
    match urlparse referer_url with
    | none => none
    | some r =>
      let path_list := splitOnChar '/' r.path
      if startswith (toL "../") origin.path then
        match path_list.dropLast with      -- path_list.pop(): exactly one segment
        | [] => none                        -- then path_list[-1] raises IndexError
        | l => some { origin with
            path := joinChar '/' (l.dropLast ++ [lstripDotSlash origin.path]),
            scheme := r.scheme, netloc := r.netloc }
      else
        match path_list with
        | [] => none                        -- unreachable: split is never empty
        | l => some { origin with
            path := joinChar '/' (l.dropLast ++ [origin.path]),
            scheme := r.scheme, netloc := r.netloc }

/-- `WebCrawler.parse_url` (`core.py` lines 104-203): normalise a raw link
against a referer URL, or discard it.  The per-instance parsed-object cache
(`get_parsed_object_from_url`) is observationally a pure call to `urlparse`
and is embedded as such. -/
def parse_url (url0 referer_url : PStr) : ResolveResult :=
  let url := removeSpaces url0
  if url = [] then .discarded
  else if startswith (toL "#") url then .discarded
  else if startswith (toL "javascript") url then .discarded
  else if startswith (toL "mailto") url then .discarded
  else if startswith (toL "tel:") url then .discarded
  else if startswith (toL "\\\"") url then
    match unescapeJsonLink url with
    | some u => .url u
    | none => .error
  else if startswith (toL "data:") url then .discarded
  else
    let url := subAtBang url
    match urlparse url with
    | none => .error                        -- uncaught ValueError from urlsplit
    | some p0 =>
      let p := clearFragment p0             -- remove url fragment
      match _make_url_by_referer p referer_url with
      | some p2 => .url (urlunparse p2)
      | none => .error

/-- `WebCrawler.get_user_agent_by_url` (`core.py` lines 97-102): the mobile
agent is chosen when `'//m.'` occurs anywhere in the URL. -/
def get_user_agent_by_url (mobile www url : PStr) : PStr :=
  if containsSub (toL "//m.") url then mobile else www

/-- `WebCrawler.get_url_type` (`core.py` lines 205-218).  The missing
`Content-Type` header (`KeyError`) is embedded as `none`. -/
def get_url_type (staticSet internalHosts : List PStr)
    (contentType : Option PStr) (reqHost : PStr) : PStr :=
  match contentType with
  | none => toL "IGNORE"
  | some ct =>
    if ct ∈ staticSet then toL "static"
    else if reqHost ∉ internalHosts then toL "external"
    else toL "recursive"

/-! ### Crawl state, fetching and retries

`get_hyper_links` (`core.py` lines 268-339) drives one URL's
fetch-classify-retry loop.  The HTTP transport (`requests`) is an external
collaborator: each invocation's observable transport behaviour is supplied
by an oracle mapping the attempt index to an outcome.  The HTML link
extraction (`parse_page_links`, built on the external `lxml` parser composed
with `parse_url`) is likewise abstracted: the oracle directly supplies the
set of already-resolved links a successful GET yields. -/

/-- A `status_code` value: Python keeps it as a string that is either the
decimal print of a numeric HTTP status or one of the exception tag strings
(`str.isdigit()` distinguishes the two). -/
inductive CStatus where
  | num (n : Nat)
  | tag (t : PStr)
deriving DecidableEq, Repr

/-- `status_code.isdigit()`. -/
def CStatus.isNum : CStatus → Bool
  | .num _ => true
  | .tag _ => false

/-- The retry gate `not status_code.isdigit() or int(status_code) > 400`. -/
def retryCondition : CStatus → Bool
  | .num n => decide (n > 400)
  | .tag _ => true

/-- The five `requests` exception classes the crawler catches. -/
inductive ExcKind where
  | sslError
  | connectionError
  | timeout
  | invalidSchema
  | chunkedEncodingError
deriving DecidableEq, Repr

/-- The tag string recorded as `status_code` for an exception. -/
def ExcKind.tagStr : ExcKind → PStr
  | .sslError => toL "SSLError"
  | .connectionError => toL "ConnectionError"
  | .timeout => toL "Timeout"
  | .invalidSchema => toL "InvalidSchema"
  | .chunkedEncodingError => toL "ChunkedEncodingError"

/-- Whether the exception handler zeroes the retry budget
(`retry_times = 0` in the `SSLError` and `InvalidSchema` handlers). -/
def ExcKind.zeroesBudget : ExcKind → Bool
  | .sslError => true
  | .invalidSchema => true
  | _ => false

/-- Outcome of the GET request issued for a `recursive` URL: an exception,
or a completed response with its status, the resolved links its body yields
(= `parse_page_links(resp.url, resp.content)`) and the body's MD5 value. -/
inductive GetOutcome where
  | exc (e : ExcKind) (msg : PStr)
  | ok (status : Nat) (links : List PStr) (md5 : Nat)
deriving DecidableEq, Repr

/-- Transport behaviour of one `get_hyper_links` invocation: an exception
raised by the HEAD request, or a completed HEAD response (status and
optional `Content-Type`) together with what a GET would then do. -/
inductive AttemptOutcome where
  | headExc (e : ExcKind) (msg : PStr)
  | headOk (status : Nat) (contentType : Option PStr) (get : GetOutcome)
deriving DecidableEq, Repr

/-- Association-list update with Python `dict` overwrite semantics. -/
def setAssoc (m : List (PStr × α)) (k : PStr) (v : α) : List (PStr × α) :=
  match m with
  | [] => [(k, v)]
  | (k', v') :: rest => if k' = k then (k, v) :: rest else (k', v') :: setAssoc rest k v

/-- Association-list lookup (`dict.get`). -/
def lookupAssoc (m : List (PStr × α)) (k : PStr) : Option α :=
  match m with
  | [] => none
  | (k', v) :: rest => if k' = k then some v else lookupAssoc rest k

/-- Crawl configuration: the pieces `load_config` reads from `config.yml`
(static content-type set, user agents, timeout) and the seed-derived
internal host list. -/
structure Config where
  staticSet : List PStr
  internalHosts : List PStr
  timeout : Nat
deriving Repr

/-- Modelled from the spec: the repository's `UrlQueue`
(`webcrawler/url_queue.py` is not under `src/`; section 4.4 of the design
gives its contract).  `addUnvisited` inserts a URL only when it is neither
visited nor queued; `getOne` removes in FIFO order; `markVisited` moves a
URL to the visited mapping with its optional fingerprint. -/
structure UrlQueue where
  unvisited : List PStr
  visited : List (PStr × Option Nat)
deriving DecidableEq, Repr

/-- Modelled from the spec: `add_unvisited_urls` for one URL. -/
def UrlQueue.addUnvisited1 (q : UrlQueue) (u : PStr) : UrlQueue :=
  if (q.visited.map Prod.fst).contains u ∨ q.unvisited.contains u then q
  else { q with unvisited := q.unvisited ++ [u] }

/-- Modelled from the spec: `add_unvisited_urls` over a set of URLs. -/
def UrlQueue.add_unvisited_urls (q : UrlQueue) (us : List PStr) : UrlQueue :=
  us.foldl UrlQueue.addUnvisited1 q

/-- Modelled from the spec: `is_url_visited`. -/
def UrlQueue.is_url_visited (q : UrlQueue) (u : PStr) : Bool :=
  (q.visited.map Prod.fst).contains u

/-- Modelled from the spec: `get_one_unvisited_url` (with the
`is_unvisited_urls_empty` check folded into the `none` case). -/
def UrlQueue.get_one_unvisited_url (q : UrlQueue) : Option (PStr × UrlQueue) :=
  match q.unvisited with
  | [] => none
  | u :: rest => some (u, { q with unvisited := rest })

/-- Modelled from the spec: `add_visited_url`. -/
def UrlQueue.add_visited_url (q : UrlQueue) (u : PStr) (md5 : Option Nat) : UrlQueue :=
  { unvisited := q.unvisited.filter (fun x => x ≠ u),
    visited := setAssoc q.visited u md5 }

/-- The crawler's mutable state that `get_hyper_links` touches:
`test_counter`, `categorised_urls`, `web_urls_mapping`, `bad_urls_mapping`,
the URL ledger, and a log of the `time.sleep` backoff durations. -/
structure CrawlState where
  test_counter : Nat
  categorised_urls : List (CStatus × List PStr)
  web_urls_mapping : List (PStr × List PStr)
  bad_urls_mapping : List (PStr × PStr)
  url_queue : UrlQueue
  sleeps : List Int
deriving DecidableEq, Repr

/-- `WebCrawler.save_categorised_url` (`core.py` lines 254-260): add the URL
to the set bucketed under its status code. -/
def save_categorised_url (m : List (CStatus × List PStr)) (k : CStatus)
    (url : PStr) : List (CStatus × List PStr) :=
  match m with
  | [] => [(k, [url])]
  | (k', s) :: rest =>
    if k' = k then (k', if s.contains url then s else s ++ [url]) :: rest
    else (k', s) :: save_categorised_url rest k url

/-- The URLs recorded in the categorisation map under a given key. -/
def catBucket (m : List (CStatus × List PStr)) (k : CStatus) : List PStr :=
  match m with
  | [] => []
  | (k', s) :: rest => if k' = k then s else catBucket rest k

/-- Net effect of one attempt's `try` block, before the retry decision. -/
structure AttemptEffect where
  status : CStatus
  exception_str : PStr
  zeroBudget : Bool
  links : List PStr
  md5 : Option Nat
deriving DecidableEq, Repr

/-- The exception handlers of `get_hyper_links` (`core.py` lines 305-327). -/
def excEffect (cfg : Config) (e : ExcKind) (msg : PStr) : AttemptEffect :=
  { status := .tag e.tagStr,
    exception_str :=
      match e with
      | .timeout => toL "Timed out for " ++ natStr cfg.timeout ++ toL " seconds"
      | _ => msg,
    zeroBudget := e.zeroesBudget, links := [], md5 := none }

/-- The `try` block of `get_hyper_links` (`core.py` lines 281-327) for one
attempt: classify the HEAD response, possibly GET and expand, or handle the
raised exception.  Returns the updated state (web-URL mapping and ledger
additions happen here) and the attempt's effect. -/
def runAttempt (cfg : Config) (st : CrawlState) (url : PStr)
    (o : AttemptOutcome) : CrawlState × AttemptEffect :=
  match o with
  | .headExc e msg => (st, excEffect cfg e msg)
  | .headOk status contentType get =>
    -- core.py parses the fetched URL (line 272) before the try block: a URL
    -- whose parse raises ValueError crashes the run right there, before any
    -- request.  The fetch model is therefore meaningful for URLs whose parse
    -- succeeds (every URL the theorems below fetch does); the default record
    -- merely keeps the function total on the crash path.
    let url_host := ((urlparse url).getD
      { scheme := [], netloc := [], path := [], params := [],
        query := [], fragment := [] }).netloc
    let url_type := get_url_type cfg.staticSet cfg.internalHosts contentType url_host
    if url_type = toL "static" ∨ url_type = toL "external" then
      (st, { status := .num status, exception_str := [], zeroBudget := false,
             links := [], md5 := none })
    else if url_type = toL "IGNORE" then
      (st, { status := .num status, exception_str := [], zeroBudget := true,
             links := [], md5 := none })
    else -- recursive: issue the GET
      match get with
      | .exc e msg => (st, excEffect cfg e msg)
      | .ok gstatus links md5 =>
        let st :=
          if (lookupAssoc st.web_urls_mapping url).isSome then st
          else { st with web_urls_mapping := setAssoc st.web_urls_mapping url links }
        let st := { st with url_queue := st.url_queue.add_unvisited_urls links }
        let e :=
          if gstatus > 400 then toL "HTTP Status Code is " ++ natStr gstatus ++ toL "."
          else []
        (st, { status := .num gstatus, exception_str := e, zeroBudget := false,
               links := links, md5 := some md5 })

/-- The tail of `get_hyper_links` after the retry decision (`core.py` lines
334-339): record the bad-URL detail when the budget ran out (`writeBad`),
categorise under the final status, mark visited, return the links. -/
def ghlFinish (writeBad : Bool) (url : PStr) (st1 : CrawlState)
    (eff : AttemptEffect) : CrawlState × List PStr :=
  let st2 :=
    if writeBad then
      { st1 with bad_urls_mapping := setAssoc st1.bad_urls_mapping url eff.exception_str }
    else st1
  let st3 := { st2 with
    categorised_urls := save_categorised_url st2.categorised_urls eff.status url }
  let st4 := { st3 with url_queue := st3.url_queue.add_visited_url url eff.md5 }
  (st4, eff.links)

/-- `WebCrawler.get_hyper_links` (`core.py` lines 268-339).  `oracle a` is
the transport behaviour of attempt number `a`; `retry_times` is the
remaining retry budget (default 3).  The request-option construction (user
agent, auth, timeout) has no further observable effect here.  Backoff sleeps
are logged in `sleeps`.  A budget zeroed inside the `try` block (the
`SSLError`/`InvalidSchema` handlers, the `IGNORE` branch) goes straight to
the exhausted branch, exactly as Python's reassigned local does. -/
def get_hyper_links (cfg : Config) (oracle : Nat → AttemptOutcome) (url : PStr)
    (depth : Nat) : Nat → Nat → CrawlState → CrawlState × List PStr
  | 0, attempt, st =>
    let p := runAttempt cfg st url (oracle attempt)
    ghlFinish true url { p.1 with test_counter := p.1.test_counter + 1 } p.2
  | rr + 1, attempt, st =>
    let p := runAttempt cfg st url (oracle attempt)
    let st1 := { p.1 with test_counter := p.1.test_counter + 1 }   -- _print_log
    if p.2.zeroBudget then ghlFinish true url st1 p.2
    else if retryCondition p.2.status then
      get_hyper_links cfg oracle url depth rr (attempt + 1)
        { st1 with sleeps := st1.sleeps ++ [(4 - (rr + 1 : Int)) * 2] }
    else ghlFinish false url st1 p.2

/-! ### Depth-first traversal

`run_dfs` (`core.py` lines 396-415): the inner `crawler` recursion is
embedded as an explicit work stack (children pushed in front of the pending
work, exactly the order the Python recursion visits them), with fuel for
termination; per-URL oracles give each URL's transport behaviour per
attempt. -/

/-- The recursive `crawler` closure of `run_dfs`, as a work stack of
`(url, depth)` pairs.  `none` means the fuel ran out. -/
def crawlerStack (cfg : Config) (oracle : PStr → Nat → AttemptOutcome)
    (max_depth : Nat) : Nat → List (PStr × Nat) → CrawlState → Option CrawlState
  | 0, _, _ => none
  | _ + 1, [], st => some st
  | fuel + 1, (url, depth) :: rest, st =>
    if depth > max_depth then
      crawlerStack cfg oracle max_depth fuel rest st
    else if st.url_queue.is_url_visited url then
      crawlerStack cfg oracle max_depth fuel rest st
    else
      let p := get_hyper_links cfg (oracle url) url depth 3 0 st
      crawlerStack cfg oracle max_depth fuel (p.2.map (fun u => (u, depth + 1)) ++ rest) p.1

/-- `WebCrawler.run_dfs` (`core.py` lines 396-415): repeatedly take one
unvisited URL from the ledger and run the recursive crawler on it at the
run's `current_depth` (which stays 0 in DFS mode). -/
def run_dfs (cfg : Config) (oracle : PStr → Nat → AttemptOutcome)
    (max_depth : Nat) : Nat → CrawlState → Option CrawlState
  | 0, _ => none
  | fuel + 1, st =>
    match st.url_queue.get_one_unvisited_url with
    | none => some st
    | some (url, q') =>
      match crawlerStack cfg oracle max_depth (fuel + 1) [(url, 0)] { st with url_queue := q' } with
      | none => none
      | some st' => run_dfs cfg oracle max_depth fuel st'

/-! ### Concrete fixtures used by the theorems below -/

/-- The reference referer of the spec's literal resolution cases. -/
def refOsmo : PStr := toL "https://store.example.com/product/osmo"

/-- A small crawl configuration: `text/css` is a static content type and
`a.com` is the only internal host. -/
def cfg0 : Config :=
  { staticSet := [toL "text/css"], internalHosts := [toL "a.com"], timeout := 30 }

/-- The empty crawl state a fresh run starts from. -/
def st0 : CrawlState :=
  { test_counter := 0, categorised_urls := [], web_urls_mapping := [],
    bad_urls_mapping := [], url_queue := { unvisited := [], visited := [] },
    sleeps := [] }

/-- A URL on the internal host, used by the fetch theorems. -/
def urlP : PStr := toL "http://a.com/p"

/-- Seed URL of the depth-first scenario. -/
def urlA : PStr := toL "http://a.com/"

/-- URL first discovered at depth 1 in the depth-first scenario. -/
def urlB : PStr := toL "http://a.com/b"

/-- Transport oracle of the depth-first scenario: the seed page links to
`urlB`; `urlB` is a page with no links; every request completes with
status 200 and content type `text/html`. -/
def dfsOracle : PStr → Nat → AttemptOutcome := fun u _ =>
  if u = urlA then .headOk 200 (some (toL "text/html")) (.ok 200 [urlB] 1)
  else .headOk 200 (some (toL "text/html")) (.ok 200 [] 2)

/-- Initial state of the depth-first scenario: the seed is queued. -/
def dfsSeed : CrawlState :=
  { st0 with url_queue := { unvisited := [urlA], visited := [] } }

/-- The final state of the depth-first scenario run with `max_depth = 0`. -/
def dfsFinal : CrawlState := (run_dfs cfg0 dfsOracle 0 5 dfsSeed).getD st0

/-! ### General lemmas about one fetch invocation -/

/-- The `try` block never touches the test counter, the categorisation map,
the bad-URL map or the sleep log. -/
theorem runAttempt_fields (cfg : Config) (st : CrawlState) (url : PStr)
    (o : AttemptOutcome) :
    (runAttempt cfg st url o).1.test_counter = st.test_counter
    ∧ (runAttempt cfg st url o).1.categorised_urls = st.categorised_urls
    ∧ (runAttempt cfg st url o).1.bad_urls_mapping = st.bad_urls_mapping
    ∧ (runAttempt cfg st url o).1.sleeps = st.sleeps := by
  cases o with
  | headExc e msg => exact ⟨rfl, rfl, rfl, rfl⟩
  | headOk s ct g =>
    cases g with
    | exc e msg =>
      simp only [runAttempt]
      split_ifs <;> exact ⟨rfl, rfl, rfl, rfl⟩
    | ok gs links md5 =>
      simp only [runAttempt]
      split_ifs <;> exact ⟨rfl, rfl, rfl, rfl⟩

/-- The post-retry tail keeps the test counter of the state it is given. -/
theorem ghlFinish_counter (wb : Bool) (url : PStr) (st1 : CrawlState)
    (eff : AttemptEffect) :
    (ghlFinish wb url st1 eff).1.test_counter = st1.test_counter := by
  cases wb <;> rfl

/-- The post-retry tail categorises the URL under the attempt's status. -/
theorem ghlFinish_cat (wb : Bool) (url : PStr) (st1 : CrawlState)
    (eff : AttemptEffect) :
    (ghlFinish wb url st1 eff).1.categorised_urls
      = save_categorised_url st1.categorised_urls eff.status url := by
  cases wb <;> rfl

/-- With the budget exhausted the bad-URL detail is recorded. -/
theorem ghlFinish_bad_true (url : PStr) (st1 : CrawlState) (eff : AttemptEffect) :
    (ghlFinish true url st1 eff).1.bad_urls_mapping
      = setAssoc st1.bad_urls_mapping url eff.exception_str := rfl

/-- With retries remaining the bad-URL map is untouched. -/
theorem ghlFinish_bad_false (url : PStr) (st1 : CrawlState) (eff : AttemptEffect) :
    (ghlFinish false url st1 eff).1.bad_urls_mapping = st1.bad_urls_mapping := rfl

/-- With an exhausted budget the invocation is terminal: one log line, a
bad-URL record, a categorisation record, and a visited mark. -/
theorem ghl_zero_eq (cfg : Config) (oracle : Nat → AttemptOutcome)
    (url : PStr) (depth a : Nat) (st : CrawlState) :
    get_hyper_links cfg oracle url depth 0 a st =
      ghlFinish true url
        { (runAttempt cfg st url (oracle a)).1 with
          test_counter := (runAttempt cfg st url (oracle a)).1.test_counter + 1 }
        (runAttempt cfg st url (oracle a)).2 := rfl

/-- A budget zeroed inside the `try` block (SSL failure, invalid schema,
missing content type) makes the invocation terminal in the same way. -/
theorem ghl_succ_zb_eq (cfg : Config) (oracle : Nat → AttemptOutcome)
    (url : PStr) (depth rr a : Nat) (st : CrawlState)
    (hzb : (runAttempt cfg st url (oracle a)).2.zeroBudget = true) :
    get_hyper_links cfg oracle url depth (rr + 1) a st =
      ghlFinish true url
        { (runAttempt cfg st url (oracle a)).1 with
          test_counter := (runAttempt cfg st url (oracle a)).1.test_counter + 1 }
        (runAttempt cfg st url (oracle a)).2 := by
  simp [get_hyper_links, hzb]

/-- A terminal outcome (numeric status `≤ 400`) with retries remaining
neither retries nor records a bad-URL detail. -/
theorem ghl_succ_noretry_eq (cfg : Config) (oracle : Nat → AttemptOutcome)
    (url : PStr) (depth rr a : Nat) (st : CrawlState)
    (hzb : (runAttempt cfg st url (oracle a)).2.zeroBudget = false)
    (hcond : retryCondition (runAttempt cfg st url (oracle a)).2.status = false) :
    get_hyper_links cfg oracle url depth (rr + 1) a st =
      ghlFinish false url
        { (runAttempt cfg st url (oracle a)).1 with
          test_counter := (runAttempt cfg st url (oracle a)).1.test_counter + 1 }
        (runAttempt cfg st url (oracle a)).2 := by
  simp [get_hyper_links, hzb, hcond]

/-- A retryable outcome with retries remaining sleeps
`(4 - remaining) * 2` seconds and recurses with one retry fewer. -/
theorem ghl_succ_retry_eq (cfg : Config) (oracle : Nat → AttemptOutcome)
    (url : PStr) (depth rr a : Nat) (st : CrawlState)
    (hzb : (runAttempt cfg st url (oracle a)).2.zeroBudget = false)
    (hcond : retryCondition (runAttempt cfg st url (oracle a)).2.status = true) :
    get_hyper_links cfg oracle url depth (rr + 1) a st =
      get_hyper_links cfg oracle url depth rr (a + 1)
        { (runAttempt cfg st url (oracle a)).1 with
          test_counter := (runAttempt cfg st url (oracle a)).1.test_counter + 1,
          sleeps := (runAttempt cfg st url (oracle a)).1.sleeps
            ++ [(4 - (rr + 1 : Int)) * 2] } := by
  simp [get_hyper_links, hzb, hcond]

/-- Every invocation logs at least one attempt. -/
theorem ghl_counter_ge (cfg : Config) (oracle : Nat → AttemptOutcome)
    (url : PStr) (depth : Nat) :
    ∀ (r a : Nat) (st : CrawlState),
      (get_hyper_links cfg oracle url depth r a st).1.test_counter
        ≥ st.test_counter + 1 := by
  intro r
  induction r with
  | zero =>
    intro a st
    rw [ghl_zero_eq, ghlFinish_counter]
    have h := (runAttempt_fields cfg st url (oracle a)).1
    simp [h]
  | succ rr ih =>
    intro a st
    have h := (runAttempt_fields cfg st url (oracle a)).1
    cases hzb : (runAttempt cfg st url (oracle a)).2.zeroBudget with
    | true =>
      rw [ghl_succ_zb_eq cfg oracle url depth rr a st hzb, ghlFinish_counter]
      simp [h]
    | false =>
      cases hcond : retryCondition (runAttempt cfg st url (oracle a)).2.status with
      | false =>
        rw [ghl_succ_noretry_eq cfg oracle url depth rr a st hzb hcond, ghlFinish_counter]
        simp [h]
      | true =>
        rw [ghl_succ_retry_eq cfg oracle url depth rr a st hzb hcond]
        have h2 := ih (a + 1)
          { (runAttempt cfg st url (oracle a)).1 with
            test_counter := (runAttempt cfg st url (oracle a)).1.test_counter + 1,
            sleeps := (runAttempt cfg st url (oracle a)).1.sleeps
              ++ [(4 - (rr + 1 : Int)) * 2] }
        simp only [h] at h2 ⊢
        omega

/-- Looking up the key just written. -/
theorem lookupAssoc_setAssoc_self {α : Type} (m : List (PStr × α)) (k : PStr) (v : α) :
    lookupAssoc (setAssoc m k v) k = some v := by
  induction m with
  | nil => simp [setAssoc, lookupAssoc]
  | cons h t ih =>
    obtain ⟨k', v'⟩ := h
    by_cases hk : k' = k
    · simp [setAssoc, lookupAssoc, hk]
    · simp [setAssoc, lookupAssoc, hk, ih]

/-- The URL just saved is in its bucket. -/
theorem mem_save_categorised_self (m : List (CStatus × List PStr)) (k : CStatus)
    (url : PStr) : url ∈ catBucket (save_categorised_url m k url) k := by
  induction m with
  | nil => simp [save_categorised_url, catBucket]
  | cons h t ih =>
    obtain ⟨k', s⟩ := h
    by_cases hk : k' = k
    · subst hk
      by_cases hc : url ∈ s
      · simp [save_categorised_url, catBucket, hc]
      · simp [save_categorised_url, catBucket, hc]
    · simp [save_categorised_url, catBucket, hk, ih]

/-! ### Claim theorems -/

/-- C1: against the referer `https://store.example.com/product/osmo`, the
Resolver maps each of the five documented reference forms to its documented
absolute URL, and discards `#overview`, `javascript:void(0)`,
`mailto:a@b.com`, `tel:123`, `data:image/png;...` and the empty string. -/
theorem claim_C1 :
    parse_url (toL "phantom-4-pro") refOsmo
      = .url (toL "https://store.example.com/product/phantom-4-pro")
    ∧ parse_url (toL "//asset.cdn.com/a.png") refOsmo
      = .url (toL "http://asset.cdn.com/a.png")
    ∧ parse_url (toL "/category/phantom") refOsmo
      = .url (toL "https://store.example.com/category/phantom")
    ∧ parse_url (toL "../compare-phantom-3") refOsmo
      = .url (toL "https://store.example.com/compare-phantom-3")
    ∧ parse_url (toL "#overview") refOsmo = .discarded
    ∧ parse_url (toL "javascript:void(0)") refOsmo = .discarded
    ∧ parse_url (toL "mailto:a@b.com") refOsmo = .discarded
    ∧ parse_url (toL "tel:123") refOsmo = .discarded
    ∧ parse_url (toL "data:image/png;...") refOsmo = .discarded
    ∧ parse_url (toL "") refOsmo = .discarded := by
  decide

/-- C3: the Fetch Classifier returns `IGNORE` when the content-type header
is absent; `static` whenever the content type is in the static set (even
for a host outside the internal set); `external` when a content type is
present, not static, and the host is not internal; and `recursive`
otherwise. -/
theorem claim_C3 (staticSet internalHosts : List PStr) (host : PStr) :
    get_url_type staticSet internalHosts none host = toL "IGNORE"
    ∧ (∀ ct, ct ∈ staticSet →
        get_url_type staticSet internalHosts (some ct) host = toL "static")
    ∧ (∀ ct, ct ∉ staticSet → host ∉ internalHosts →
        get_url_type staticSet internalHosts (some ct) host = toL "external")
    ∧ (∀ ct, ct ∉ staticSet → host ∈ internalHosts →
        get_url_type staticSet internalHosts (some ct) host = toL "recursive") := by
  refine ⟨rfl, ?_, ?_, ?_⟩
  · intro ct h
    simp [get_url_type, h]
  · intro ct h h'
    simp [get_url_type, h, h']
  · intro ct h h'
    simp [get_url_type, h, h']

/-- C3 witness: the classifier evaluated at the spec's literal cases. -/
theorem claim_C3_witness :
    get_url_type cfg0.staticSet cfg0.internalHosts none (toL "a.com") = toL "IGNORE"
    ∧ get_url_type cfg0.staticSet cfg0.internalHosts (some (toL "text/css")) (toL "b.com")
      = toL "static"
    ∧ get_url_type cfg0.staticSet cfg0.internalHosts (some (toL "text/html")) (toL "b.com")
      = toL "external"
    ∧ get_url_type cfg0.staticSet cfg0.internalHosts (some (toL "text/html")) (toL "a.com")
      = toL "recursive" :=
  ⟨(claim_C3 cfg0.staticSet cfg0.internalHosts (toL "a.com")).1,
   (claim_C3 cfg0.staticSet cfg0.internalHosts (toL "b.com")).2.1 (toL "text/css") (by decide),
   (claim_C3 cfg0.staticSet cfg0.internalHosts (toL "b.com")).2.2.1 (toL "text/html")
     (by decide) (by decide),
   (claim_C3 cfg0.staticSet cfg0.internalHosts (toL "a.com")).2.2.2 (toL "text/html")
     (by decide) (by decide)⟩

/-- C8 counterexample: the user-agent choice tests for the substring
`'//m.'` anywhere in the URL, not for a host beginning with `m.`: the URL
`https://example.com/a//m.b` (host `example.com`) selects the mobile
agent. -/
theorem claim_C8_counterexample :
    get_user_agent_by_url (toL "mobile-agent") (toL "www-agent")
      (toL "https://example.com/a//m.b") = toL "mobile-agent"
    ∧ (urlparse (toL "https://example.com/a//m.b")).map ParsedUrl.netloc
      = some (toL "example.com")
    ∧ startswith (toL "m.") (toL "example.com") = false
    ∧ toL "mobile-agent" ≠ toL "www-agent" := by
  decide

/-- C8 (amended): the request options select the mobile user agent exactly
when the string `//m.` occurs somewhere in the URL — for ordinary absolute
URLs this means a host beginning with `m.`, but any occurrence (for example
in the path) also triggers it. -/
theorem claim_C8 (mobile www url : PStr) (h : mobile ≠ www) :
    get_user_agent_by_url mobile www url = mobile
      ↔ containsSub (toL "//m.") url = true := by
  cases hb : containsSub (toL "//m.") url with
  | true => simp [get_user_agent_by_url, hb]
  | false =>
    simp [get_user_agent_by_url, hb]
    exact fun hh => h hh.symm

/-- C8 witness: the amended equivalence at a mobile-host URL. -/
theorem claim_C8_witness :
    get_user_agent_by_url (toL "mobile-agent") (toL "www-agent") (toL "http://m.a.com/")
      = toL "mobile-agent"
      ↔ containsSub (toL "//m.") (toL "http://m.a.com/") = true :=
  claim_C8 (toL "mobile-agent") (toL "www-agent") (toL "http://m.a.com/") (by decide)

/-- C9 counterexample: `MAILTO:a@b.com` is an already-absolute URL (its
scheme is `MAILTO`) with no fragment, yet resolving it lowercases the
scheme instead of returning it unchanged, and resolving the result again
discards it instead of returning it — both halves of the claim fail. -/
theorem claim_C9_counterexample :
    parse_url (toL "MAILTO:a@b.com") refOsmo = .url (toL "mailto:a@b.com")
    ∧ toL "mailto:a@b.com" ≠ toL "MAILTO:a@b.com"
    ∧ parse_url (toL "mailto:a@b.com") refOsmo = .discarded := by
  decide

/-- C10: for links beginning with `../`, the Resolver pops exactly one
segment off the referer's path no matter how many `../` prefixes the link
has, and strips all leading `.` and `/` characters (a character-set strip):
adding a further `../` prefix changes nothing, `../../x` against
`https://h.example.com/a/b/c/d` still pops only one segment, and `../..x`
loses its leading dots. -/
theorem claim_C10 :
    (∀ s : PStr, lstripDotSlash (toL "../" ++ s) = lstripDotSlash s)
    ∧ (∀ (p : ParsedUrl) (r : PStr), p.scheme = [] → p.netloc = [] →
        startswith (toL "../") p.path = true →
        _make_url_by_referer { p with path := toL "../" ++ p.path } r
          = _make_url_by_referer p r)
    ∧ parse_url (toL "../../x") (toL "https://h.example.com/a/b/c/d")
      = .url (toL "https://h.example.com/a/b/x")
    ∧ parse_url (toL "../..x") refOsmo = .url (toL "https://store.example.com/x")
    ∧ parse_url (toL "../../compare-phantom-3") refOsmo
      = parse_url (toL "../compare-phantom-3") refOsmo := by
  have key : ∀ s : PStr, lstripDotSlash (toL "../" ++ s) = lstripDotSlash s := by
    intro s
    simp [toL, lstripDotSlash]
  refine ⟨key, ?_, by decide, by decide, by decide⟩
  intro p r hs hn hp
  obtain ⟨t, ht⟩ : ∃ t, p.path = '.' :: '.' :: '/' :: t := by
    rcases hpath : p.path with _ | ⟨c1, _ | ⟨c2, _ | ⟨c3, t⟩⟩⟩ <;>
      rw [hpath] at hp <;> simp [startswith, List.isPrefixOf] at hp
    obtain ⟨e1, e2, e3⟩ := hp
    subst e1
    subst e2
    subst e3
    exact ⟨t, rfl⟩
  unfold _make_url_by_referer
  rw [ht]
  cases hur : urlparse r with
  | none => simp [hs, hn, startswith, List.isPrefixOf, toL]
  | some rr => simp [hs, hn, startswith, List.isPrefixOf, toL, key, lstripDotSlash]

/-- C4 counterexample: a response with status 200 and no Content-Type
header is categorised under the numeric key 200, the `IGNORE` bucket stays
empty, and (as the claim also says) only one attempt is made. -/
theorem claim_C4_counterexample :
    ((get_hyper_links cfg0 (fun _ => .headOk 200 none (.ok 0 [] 0))
        urlP 0 3 0 st0).1.categorised_urls = [(.num 200, [urlP])])
    ∧ catBucket (get_hyper_links cfg0 (fun _ => .headOk 200 none (.ok 0 [] 0))
        urlP 0 3 0 st0).1.categorised_urls (.tag (toL "IGNORE")) = []
    ∧ (get_hyper_links cfg0 (fun _ => .headOk 200 none (.ok 0 [] 0))
        urlP 0 3 0 st0).1.test_counter = 1 := by
  decide

/-- C5 counterexample: a completed request with status exactly 400 (here a
static asset) is not retried although the full retry budget remains — one
single attempt is made — while the same fetch with status 404 is retried to
4 attempts, showing the gate is strictly `> 400`. -/
theorem claim_C5_counterexample :
    (get_hyper_links cfg0 (fun _ => .headOk 400 (some (toL "text/css")) (.ok 0 [] 0))
        urlP 0 3 0 st0).1.test_counter = 1
    ∧ (get_hyper_links cfg0 (fun _ => .headOk 404 (some (toL "text/css")) (.ok 0 [] 0))
        urlP 0 3 0 st0).1.test_counter = 4 := by
  decide

/-- C7 counterexample: a URL that fails three times with `ConnectionError`
and then succeeds with status 200 on its final permitted attempt ends with
final outcome 200 in the categorisation map, yet carries an entry (the
empty detail) in the bad-URL map. -/
theorem claim_C7_counterexample :
    catBucket (get_hyper_links cfg0
        (fun a => if a < 3 then .headExc .connectionError (toL "boom")
                  else .headOk 200 (some (toL "text/css")) (.ok 0 [] 0))
        urlP 0 3 0 st0).1.categorised_urls (.num 200) = [urlP]
    ∧ lookupAssoc (get_hyper_links cfg0
        (fun a => if a < 3 then .headExc .connectionError (toL "boom")
                  else .headOk 200 (some (toL "text/css")) (.ok 0 [] 0))
        urlP 0 3 0 st0).1.bad_urls_mapping urlP = some [] := by
  decide

set_option maxHeartbeats 2000000 in
/-- C6 counterexample: in depth-first mode with `max_depth = 0`, the URL
`urlB` is first discovered at depth 1 (beyond the max depth) and the
recursive descent skips it — yet the outer loop of `run_dfs` later
dequeues it and fetches it at depth 0: the run ends with `urlB` visited and
categorised under status 200. -/
theorem claim_C6_counterexample :
    (run_dfs cfg0 dfsOracle 0 5 dfsSeed).isSome = true
    ∧ dfsFinal.url_queue.is_url_visited urlB = true
    ∧ catBucket dfsFinal.categorised_urls (.num 200) = [urlA, urlB]
    ∧ dfsFinal.test_counter = 2 :=
  ⟨rfl, rfl, rfl, rfl⟩

/-- Saving under one key leaves every other key's bucket unchanged. -/
theorem catBucket_save_ne (m : List (CStatus × List PStr)) (k k' : CStatus)
    (url : PStr) (h : k ≠ k') :
    catBucket (save_categorised_url m k url) k' = catBucket m k' := by
  induction m with
  | nil => simp [save_categorised_url, catBucket, h]
  | cons hd t ih =>
    obtain ⟨k2, s⟩ := hd
    by_cases h2 : k2 = k
    · subst h2
      simp [save_categorised_url, catBucket, h, ih]
    · simp [save_categorised_url, catBucket, h2, ih]

/-- An attempt whose outcome is a numeric status of at most 400 is terminal:
exactly one attempt is logged, whatever the remaining budget. -/
theorem ghl_one_attempt_of_le400 (cfg : Config) (oracle : Nat → AttemptOutcome)
    (url : PStr) (depth r a : Nat) (st : CrawlState) (n : Nat)
    (hs : (runAttempt cfg st url (oracle a)).2.status = .num n) (hle : n ≤ 400) :
    (get_hyper_links cfg oracle url depth r a st).1.test_counter
      = st.test_counter + 1 := by
  have hcond : retryCondition (runAttempt cfg st url (oracle a)).2.status = false := by
    rw [hs]
    simp [retryCondition]
    omega
  have hc := (runAttempt_fields cfg st url (oracle a)).1
  cases r with
  | zero =>
    rw [ghl_zero_eq, ghlFinish_counter]
    simp [hc]
  | succ rr =>
    cases hzb : (runAttempt cfg st url (oracle a)).2.zeroBudget with
    | true =>
      rw [ghl_succ_zb_eq cfg oracle url depth rr a st hzb, ghlFinish_counter]
      simp [hc]
    | false =>
      rw [ghl_succ_noretry_eq cfg oracle url depth rr a st hzb hcond, ghlFinish_counter]
      simp [hc]

/-- A retryable attempt with budget remaining leads to at least one more
logged attempt. -/
theorem ghl_second_attempt (cfg : Config) (oracle : Nat → AttemptOutcome)
    (url : PStr) (depth rr a : Nat) (st : CrawlState)
    (hzb : (runAttempt cfg st url (oracle a)).2.zeroBudget = false)
    (hcond : retryCondition (runAttempt cfg st url (oracle a)).2.status = true) :
    (get_hyper_links cfg oracle url depth (rr + 1) a st).1.test_counter
      ≥ st.test_counter + 2 := by
  rw [ghl_succ_retry_eq cfg oracle url depth rr a st hzb hcond]
  have hc := (runAttempt_fields cfg st url (oracle a)).1
  have h2 := ghl_counter_ge cfg oracle url depth rr (a + 1)
    { (runAttempt cfg st url (oracle a)).1 with
      test_counter := (runAttempt cfg st url (oracle a)).1.test_counter + 1,
      sleeps := (runAttempt cfg st url (oracle a)).1.sleeps
        ++ [(4 - (rr + 1 : Int)) * 2] }
  simp only [hc] at h2 ⊢
  omega

/-- C2: the retry machinery of the fetch procedure.  (i) With no retries
remaining an invocation makes exactly one attempt.  (ii) A retry happens
only when the gate holds: an attempt whose outcome is a numeric status of
at most 400 is terminal whatever the remaining budget.  (iii) A URL whose
every attempt raises a retryable `ConnectionError` is attempted exactly
4 times (initial + 3 retries), sleeping 2, 4 and 6 seconds before the
successive retries, and ends categorised under its failure tag with the
failure detail recorded. -/
theorem claim_C2 :
    (∀ (cfg : Config) (oracle : Nat → AttemptOutcome) (url : PStr) (depth a : Nat)
        (st : CrawlState),
        (get_hyper_links cfg oracle url depth 0 a st).1.test_counter
          = st.test_counter + 1)
    ∧ (∀ (cfg : Config) (oracle : Nat → AttemptOutcome) (url : PStr)
        (depth r a : Nat) (st : CrawlState) (n : Nat),
        (runAttempt cfg st url (oracle a)).2.status = .num n → n ≤ 400 →
        (get_hyper_links cfg oracle url depth r a st).1.test_counter
          = st.test_counter + 1)
    ∧ (∀ (cfg : Config) (url : PStr) (depth : Nat) (st : CrawlState) (msg : PStr),
        (get_hyper_links cfg (fun _ => .headExc .connectionError msg)
            url depth 3 0 st).1.test_counter = st.test_counter + 4
        ∧ (get_hyper_links cfg (fun _ => .headExc .connectionError msg)
            url depth 3 0 st).1.sleeps = st.sleeps ++ [2, 4, 6]
        ∧ url ∈ catBucket (get_hyper_links cfg (fun _ => .headExc .connectionError msg)
            url depth 3 0 st).1.categorised_urls (.tag (toL "ConnectionError"))
        ∧ lookupAssoc (get_hyper_links cfg (fun _ => .headExc .connectionError msg)
            url depth 3 0 st).1.bad_urls_mapping url = some msg) := by
  refine ⟨?_, ?_, ?_⟩
  · intro cfg oracle url depth a st
    rw [ghl_zero_eq, ghlFinish_counter]
    simp [(runAttempt_fields cfg st url (oracle a)).1]
  · intro cfg oracle url depth r a st n hs hle
    exact ghl_one_attempt_of_le400 cfg oracle url depth r a st n hs hle
  · intro cfg url depth st msg
    refine ⟨?_, ?_, ?_, ?_⟩ <;>
      simp [get_hyper_links, runAttempt, excEffect, ExcKind.tagStr,
        ExcKind.zeroesBudget, retryCondition, ghlFinish,
        mem_save_categorised_self, lookupAssoc_setAssoc_self, List.append_assoc]

/-- C2 witness: a status-200 static fetch makes one attempt; with no budget
left a single attempt is made. -/
theorem claim_C2_witness :
    (get_hyper_links cfg0 (fun _ => .headOk 200 (some (toL "text/css")) (.ok 0 [] 0))
        urlP 0 3 0 st0).1.test_counter = st0.test_counter + 1
    ∧ (get_hyper_links cfg0 (fun _ => .headExc .connectionError (toL "boom"))
        urlP 0 0 0 st0).1.test_counter = st0.test_counter + 1 :=
  ⟨claim_C2.2.1 cfg0 (fun _ => .headOk 200 (some (toL "text/css")) (.ok 0 [] 0))
      urlP 0 3 0 st0 200 (by decide) (by omega),
   claim_C2.1 cfg0 (fun _ => .headExc .connectionError (toL "boom")) urlP 0 0 st0⟩

/-- C4 (amended): a response with no Content-Type header is never retried
(one attempt whatever the budget), but it is categorised under the numeric
status code of the HEAD response — the `IGNORE` classification zeroes the
retry budget without ever being written as a categorisation key — and the
URL gets an empty detail in the bad-URL map. -/
theorem claim_C4 (cfg : Config) (oracle : Nat → AttemptOutcome) (url : PStr)
    (depth r a n : Nat) (g : GetOutcome) (st : CrawlState)
    (h : oracle a = .headOk n none g) :
    (get_hyper_links cfg oracle url depth r a st).1.test_counter = st.test_counter + 1
    ∧ (get_hyper_links cfg oracle url depth r a st).1.categorised_urls
      = save_categorised_url st.categorised_urls (.num n) url
    ∧ lookupAssoc (get_hyper_links cfg oracle url depth r a st).1.bad_urls_mapping url
      = some []
    ∧ catBucket (get_hyper_links cfg oracle url depth r a st).1.categorised_urls
        (.tag (toL "IGNORE"))
      = catBucket st.categorised_urls (.tag (toL "IGNORE")) := by
  have hra : runAttempt cfg st url (oracle a)
      = (st, ⟨.num n, [], true, [], none⟩) := by
    rw [h]
    simp +decide [runAttempt, get_url_type]
  have hterm : get_hyper_links cfg oracle url depth r a st
      = ghlFinish true url { st with test_counter := st.test_counter + 1 }
          ⟨.num n, [], true, [], none⟩ := by
    cases r with
    | zero => rw [ghl_zero_eq, hra]
    | succ rr => rw [ghl_succ_zb_eq cfg oracle url depth rr a st (by rw [hra]), hra]
  rw [hterm]
  refine ⟨?_, ?_, ?_, ?_⟩
  · rw [ghlFinish_counter]
  · rw [ghlFinish_cat]
  · rw [ghlFinish_bad_true]
    exact lookupAssoc_setAssoc_self _ url []
  · rw [ghlFinish_cat]
    exact catBucket_save_ne _ _ _ _ (by simp)

/-- C4 witness: the amended behaviour at a concrete missing-content-type
fetch with status 200. -/
theorem claim_C4_witness :
    (get_hyper_links cfg0 (fun _ => .headOk 200 none (.ok 0 [] 0))
        urlP 0 3 0 st0).1.test_counter = st0.test_counter + 1
    ∧ (get_hyper_links cfg0 (fun _ => .headOk 200 none (.ok 0 [] 0))
        urlP 0 3 0 st0).1.categorised_urls
      = save_categorised_url st0.categorised_urls (.num 200) urlP :=
  ⟨(claim_C4 cfg0 (fun _ => .headOk 200 none (.ok 0 [] 0)) urlP 0 3 0 200
      (.ok 0 [] 0) st0 rfl).1,
   (claim_C4 cfg0 (fun _ => .headOk 200 none (.ok 0 [] 0)) urlP 0 3 0 200
      (.ok 0 [] 0) st0 rfl).2.1⟩

/-- C5 (amended): a completed request retries only on a numeric status
strictly greater than 400: status exactly 400 is terminal at once (one
attempt), while a status above 400 with retries remaining leads to at
least a second attempt. -/
theorem claim_C5 :
    (∀ (cfg : Config) (oracle : Nat → AttemptOutcome) (url : PStr)
        (depth r a : Nat) (st : CrawlState),
        (runAttempt cfg st url (oracle a)).2.status = .num 400 →
        (get_hyper_links cfg oracle url depth r a st).1.test_counter
          = st.test_counter + 1)
    ∧ (∀ (cfg : Config) (oracle : Nat → AttemptOutcome) (url : PStr)
        (depth rr a : Nat) (st : CrawlState) (n : Nat),
        (runAttempt cfg st url (oracle a)).2.status = .num n → n > 400 →
        (runAttempt cfg st url (oracle a)).2.zeroBudget = false →
        (get_hyper_links cfg oracle url depth (rr + 1) a st).1.test_counter
          ≥ st.test_counter + 2) := by
  constructor
  · intro cfg oracle url depth r a st hs
    exact ghl_one_attempt_of_le400 cfg oracle url depth r a st 400 hs (by omega)
  · intro cfg oracle url depth rr a st n hs hgt hzb
    have hcond : retryCondition (runAttempt cfg st url (oracle a)).2.status = true := by
      rw [hs]
      simp [retryCondition]
      omega
    exact ghl_second_attempt cfg oracle url depth rr a st hzb hcond

/-- C5 witness: status 400 makes one attempt; status 404 is retried. -/
theorem claim_C5_witness :
    (get_hyper_links cfg0 (fun _ => .headOk 400 (some (toL "text/css")) (.ok 0 [] 0))
        urlP 0 3 0 st0).1.test_counter = st0.test_counter + 1
    ∧ (get_hyper_links cfg0 (fun _ => .headOk 404 (some (toL "text/css")) (.ok 0 [] 0))
        urlP 0 3 0 st0).1.test_counter ≥ st0.test_counter + 2 :=
  ⟨claim_C5.1 cfg0 (fun _ => .headOk 400 (some (toL "text/css")) (.ok 0 [] 0))
      urlP 0 3 0 st0 (by decide),
   claim_C5.2 cfg0 (fun _ => .headOk 404 (some (toL "text/css")) (.ok 0 [] 0))
      urlP 0 2 0 st0 404 (by decide) (by omega) (by decide)⟩

/-- C7 (amended): the bad-URL detail map gains an entry exactly when a
fetch invocation ends with an exhausted or forcibly zeroed retry budget:
an attempt that terminates while retries remain leaves the map untouched,
while a final-budget attempt (or an SSL/invalid-schema/unclassifiable one)
records the current exception string — which is empty when that last
attempt actually succeeded, so a URL with final outcome 200 can appear. -/
theorem claim_C7 :
    (∀ (cfg : Config) (oracle : Nat → AttemptOutcome) (url : PStr)
        (depth rr a : Nat) (st : CrawlState),
        (runAttempt cfg st url (oracle a)).2.zeroBudget = false →
        retryCondition (runAttempt cfg st url (oracle a)).2.status = false →
        (get_hyper_links cfg oracle url depth (rr + 1) a st).1.bad_urls_mapping
          = st.bad_urls_mapping)
    ∧ (∀ (cfg : Config) (oracle : Nat → AttemptOutcome) (url : PStr)
        (depth a : Nat) (st : CrawlState),
        (get_hyper_links cfg oracle url depth 0 a st).1.bad_urls_mapping
          = setAssoc st.bad_urls_mapping url
              (runAttempt cfg st url (oracle a)).2.exception_str)
    ∧ (∀ (cfg : Config) (oracle : Nat → AttemptOutcome) (url : PStr)
        (depth rr a : Nat) (st : CrawlState),
        (runAttempt cfg st url (oracle a)).2.zeroBudget = true →
        (get_hyper_links cfg oracle url depth (rr + 1) a st).1.bad_urls_mapping
          = setAssoc st.bad_urls_mapping url
              (runAttempt cfg st url (oracle a)).2.exception_str) := by
  refine ⟨?_, ?_, ?_⟩
  · intro cfg oracle url depth rr a st hzb hcond
    rw [ghl_succ_noretry_eq cfg oracle url depth rr a st hzb hcond, ghlFinish_bad_false]
    simp [(runAttempt_fields cfg st url (oracle a)).2.2.1]
  · intro cfg oracle url depth a st
    rw [ghl_zero_eq, ghlFinish_bad_true]
    simp [(runAttempt_fields cfg st url (oracle a)).2.2.1]
  · intro cfg oracle url depth rr a st hzb
    rw [ghl_succ_zb_eq cfg oracle url depth rr a st hzb, ghlFinish_bad_true]
    simp [(runAttempt_fields cfg st url (oracle a)).2.2.1]

/-- C7 witness: a successful static fetch with retries remaining records no
bad-URL detail; an SSL failure records its message at once. -/
theorem claim_C7_witness :
    (get_hyper_links cfg0 (fun _ => .headOk 200 (some (toL "text/css")) (.ok 0 [] 0))
        urlP 0 3 0 st0).1.bad_urls_mapping = st0.bad_urls_mapping
    ∧ (get_hyper_links cfg0 (fun _ => .headExc .sslError (toL "tls"))
        urlP 0 3 0 st0).1.bad_urls_mapping
      = setAssoc st0.bad_urls_mapping urlP (toL "tls") :=
  ⟨claim_C7.1 cfg0 (fun _ => .headOk 200 (some (toL "text/css")) (.ok 0 [] 0))
      urlP 0 2 0 st0 (by decide) (by decide),
   claim_C7.2.2 cfg0 (fun _ => .headExc .sslError (toL "tls"))
      urlP 0 2 0 st0 (by decide)⟩

/-- C6 (amended): in depth-first mode the recursive descent does skip a URL
discovered beyond the max depth, but the outer loop of `run_dfs` keeps
dequeueing unvisited URLs and dispatches them at the run's depth 0, so the
skipped URL is fetched later: a completed run ends with an empty unvisited
queue, and in the depth-1 scenario the beyond-depth URL ends visited. -/
theorem claim_C6 :
    (∀ (cfg : Config) (oracle : PStr → Nat → AttemptOutcome) (maxd fuel : Nat)
        (rest : List (PStr × Nat)) (st : CrawlState) (url : PStr) (depth : Nat),
        depth > maxd →
        crawlerStack cfg oracle maxd (fuel + 1) ((url, depth) :: rest) st
          = crawlerStack cfg oracle maxd fuel rest st)
    ∧ (∀ (cfg : Config) (oracle : PStr → Nat → AttemptOutcome) (maxd fuel : Nat)
        (st st' : CrawlState),
        run_dfs cfg oracle maxd fuel st = some st' → st'.url_queue.unvisited = [])
    ∧ dfsFinal.url_queue.is_url_visited urlB = true := by
  refine ⟨?_, ?_, rfl⟩
  · intro cfg oracle maxd fuel rest st url depth h
    simp [crawlerStack, h]
  · intro cfg oracle maxd fuel
    induction fuel with
    | zero =>
      intro st st' h
      simp [run_dfs] at h
    | succ f ih =>
      intro st st' h
      rw [run_dfs] at h
      cases hq : st.url_queue.get_one_unvisited_url with
      | none =>
        rw [hq] at h
        simp at h
        subst h
        cases hu : st.url_queue.unvisited with
        | nil => rfl
        | cons u rest =>
          exfalso
          unfold UrlQueue.get_one_unvisited_url at hq
          rw [hu] at hq
          simp at hq
      | some p =>
        obtain ⟨u, q'⟩ := p
        rw [hq] at h
        simp at h
        cases hc : crawlerStack cfg oracle maxd (f + 1) [(u, 0)]
            { st with url_queue := q' } with
        | none =>
          rw [hc] at h
          simp at h
        | some st2 =>
          rw [hc] at h
          simp at h
          exact ih st2 st' h

/-- C6 witness: a beyond-depth stack entry is skipped; a run over an empty
queue terminates with the queue still empty. -/
theorem claim_C6_witness :
    crawlerStack cfg0 dfsOracle 0 1 [(urlB, 1)] dfsSeed
      = crawlerStack cfg0 dfsOracle 0 0 [] dfsSeed
    ∧ st0.url_queue.unvisited = [] :=
  ⟨claim_C6.1 cfg0 dfsOracle 0 0 [] dfsSeed urlB 1 (by omega),
   claim_C6.2.1 cfg0 dfsOracle 0 1 st0 st0 rfl⟩

/-- A prefix that fails on a string also fails on its fragment-free
prefix. -/
theorem startswith_stripFragment_aux {p l : PStr}
    (h : startswith p l = false) : startswith p (stripFragment l) = false := by
  cases hb : startswith p (stripFragment l) with
  | false => rfl
  | true =>
    exfalso
    have hb' : p <+: stripFragment l := by
      rw [startswith] at hb
      exact List.isPrefixOf_iff_prefix.1 hb
    have hl : p <+: l := hb'.trans ( List.takeWhile_prefix _)
    have : startswith p l = true := by
      rw [startswith]
      exact List.isPrefixOf_iff_prefix.2 hl
    rw [h] at this
    exact Bool.noConfusion this

/-- A space-free string has a space-free fragment-free prefix. -/
theorem removeSpaces_stripFragment {l : PStr} (h : removeSpaces l = l) :
    removeSpaces (stripFragment l) = stripFragment l := by
  rw [removeSpaces, List.filter_eq_self] at h ⊢
  intro a ha
  exact h a (( List.takeWhile_prefix _).sublist.subset ha)

/-- Clearing the fragment twice is clearing it once. -/
theorem clearFragment_idem (p : ParsedUrl) :
    clearFragment (clearFragment p) = clearFragment p := rfl

/-- Re-serialising a parsed URL with a scheme never yields the empty
string. -/
theorem urlunparse_ne_nil (p : ParsedUrl) (h : p.scheme ≠ []) :
    urlunparse p ≠ [] := by
  simp only [urlunparse, urlunsplit]
  split_ifs <;> simp_all

/-- Resolution of a guard-free absolute URL whose parse succeeds (a parse
returning `none` is the uncaught `ValueError` path): `parse_url` returns
exactly the re-serialisation of that parse with the fragment cleared. -/
theorem parse_url_absolute (u referer : PStr) (q : ParsedUrl)
    (hq : urlparse u = some q)
    (hsp : removeSpaces u = u)
    (h1 : startswith (toL "#") u = false)
    (h2 : startswith (toL "javascript") u = false)
    (h3 : startswith (toL "mailto") u = false)
    (h4 : startswith (toL "tel:") u = false)
    (h5 : startswith (toL "\\\"") u = false)
    (h6 : startswith (toL "data:") u = false)
    (h7 : subAtBang u = u)
    (h8 : q.scheme ≠ []) :
    parse_url u referer = .url (urlunparse (clearFragment q)) := by
  have hne : u ≠ [] := by
    intro he
    subst he
    have h0 : urlparse ([] : PStr)
        = some { scheme := [], netloc := [], path := [], params := [],
                 query := [], fragment := [] } := by decide
    rw [h0] at hq
    have hqq := Option.some.inj hq
    apply h8
    rw [← hqq]
  have hmk : _make_url_by_referer (clearFragment q) referer
      = some (clearFragment q) := by
    unfold _make_url_by_referer
    rw [if_pos]
    exact h8
  unfold parse_url
  simp only [hsp, h1, h2, h3, h4, h5, h6, h7, hne, if_false, Bool.false_eq_true,
    ite_false, hq, hmk]

/-- C9 (amended): resolving an already-absolute URL that the parser accepts
(CPython's `urlsplit` raises `ValueError` on an unbalanced bracketed
netloc, so a successful parse is a hypothesis) and that is in parser-normal
form — lowercase scheme not among the discarded prefixes, no spaces, no
`@!` marker inside it or its fragment-free prefix, and whose parse
re-serialises to itself minus the fragment — returns it unchanged except
for removal of its fragment, and resolving the result again returns it
unchanged.  (In general the parser may rewrite the URL: see the
counterexample, where an uppercase scheme is lowercased and the result is
then discarded.) -/
theorem claim_C9 (url referer : PStr) (q : ParsedUrl)
    (hq : urlparse url = some q)
    (hsp : removeSpaces url = url)
    (h1 : startswith (toL "#") url = false)
    (h2 : startswith (toL "javascript") url = false)
    (h3 : startswith (toL "mailto") url = false)
    (h4 : startswith (toL "tel:") url = false)
    (h5 : startswith (toL "\\\"") url = false)
    (h6 : startswith (toL "data:") url = false)
    (h7 : subAtBang url = url)
    (h7s : subAtBang (stripFragment url) = stripFragment url)
    (h8 : q.scheme ≠ [])
    (h9 : urlunparse (clearFragment q) = stripFragment url)
    (h10 : urlparse (stripFragment url) = some (clearFragment q)) :
    parse_url url referer = .url (stripFragment url)
    ∧ parse_url (stripFragment url) referer = .url (stripFragment url) := by
  constructor
  · rw [parse_url_absolute url referer q hq hsp h1 h2 h3 h4 h5 h6 h7 h8, h9]
  · have h8' : (clearFragment q).scheme ≠ [] := h8
    rw [parse_url_absolute (stripFragment url) referer (clearFragment q) h10
        (removeSpaces_stripFragment hsp)
        (startswith_stripFragment_aux h1)
        (startswith_stripFragment_aux h2)
        (startswith_stripFragment_aux h3)
        (startswith_stripFragment_aux h4)
        (startswith_stripFragment_aux h5)
        (startswith_stripFragment_aux h6)
        h7s h8']
    rw [clearFragment_idem q, h9]

set_option maxHeartbeats 2000000 in
/-- C9 witness: the amended statement at the referer URL carrying a
fragment. -/
theorem claim_C9_witness :
    parse_url (toL "https://store.example.com/product/osmo#ov") refOsmo
      = .url (stripFragment (toL "https://store.example.com/product/osmo#ov"))
    ∧ parse_url (stripFragment (toL "https://store.example.com/product/osmo#ov")) refOsmo
      = .url (stripFragment (toL "https://store.example.com/product/osmo#ov")) :=
  claim_C9 (toL "https://store.example.com/product/osmo#ov") refOsmo
    { scheme := toL "https", netloc := toL "store.example.com",
      path := toL "/product/osmo", params := [], query := [],
      fragment := toL "ov" }
    (by decide) (by decide) (by decide) (by decide) (by decide) (by decide)
    (by decide) (by decide) (by decide) (by decide) (by decide) (by decide)
    (by decide)

/-- C10 witness: popping exactly one segment — the parent-relative branch
applied with an extra `../` prefix at a concrete origin. -/
theorem claim_C10_witness :
    _make_url_by_referer
      { scheme := [], netloc := [], path := toL "../" ++ toL "../x",
        params := [], query := [], fragment := [] } refOsmo
      = _make_url_by_referer
        { scheme := [], netloc := [], path := toL "../x",
          params := [], query := [], fragment := [] } refOsmo :=
  claim_C10.2.1
    { scheme := [], netloc := [], path := toL "../x",
      params := [], query := [], fragment := [] } refOsmo rfl rfl (by decide)

end WebCrawler
